import Mathlib

/-!
Verification of the XDR / ONC RPC v2 message codec from
`eden/fs/nfs/rpc/Rpc.h`.

The message-model structures, their field orders, the enumerations and the
discriminated-union dispatch (`XdrTrait<rejected_reply>::deserialize`,
`XdrTrait<reply_body>::deserialize`) are embedded from `Rpc.h`.  The primitive
codec layer (`XdrTrait` for `uint32_t`, enums, variable-length opaque data,
sequences, and the `XdrVariant` base) lives in `eden/fs/nfs/xdr/Xdr.h`, which
is part of the repository but not among the provided sources; those
definitions are modelled from the specification (spec sections 4.1 and 4.2),
as is `operator==` whose `EDEN_XDR_SERDE_IMPL` instantiations live in
`Rpc.cpp`.

Bytes are `Fin 256`; a decoder consumes a byte list and returns the decoded
value together with the unconsumed tail, or a typed decode error.
-/

/-- A single octet of the wire format. -/
abbrev Byte : Type := Fin 256

/-- A wire buffer: the byte sink during encoding, the cursor contents during
decoding. -/
abbrev Bytes : Type := List Byte

/-- An unsigned 32-bit integer, the basic XDR integral type (`uint32_t`). -/
abbrev U32 : Type := Fin 4294967296

/-- Modelled from the spec: the decode-error taxonomy of spec section 7
(`TruncatedInput`, `InvalidEnumValue`, `InvalidBoolean`); the concrete error
type of `Xdr.h` is not among the provided sources. -/
inductive XdrError : Type where
  | truncated
  | invalidEnum
  | invalidBool
deriving DecidableEq

/-- A decoder: consumes bytes from the front of the buffer and returns the
decoded value with the unconsumed tail, or fails with a typed error. -/
abbrev Decoder (α : Type) : Type := Bytes → Except XdrError (α × Bytes)

/-- Sequential composition of two decoders, mirroring the statement sequence
emitted by `FOLLY_PP_FOR_EACH(EDEN_XDR_DE, ...)`: run the first decoder, then
the second on the remaining bytes; any failure aborts the whole decode with
the same error. -/
def dthen {α β : Type} (d1 : Decoder α) (d2 : Decoder β) : Decoder (α × β) :=
  fun buf =>
    match d1 buf with
    | .error e => .error e
    | .ok (a, r1) =>
      match d2 r1 with
      | .error e => .error e
      | .ok (b, r2) => .ok ((a, b), r2)

/-- Map a function over a decoder's result, used to assemble a structure from
its sequentially decoded fields. -/
def dmap {α β : Type} (d : Decoder α) (f : α → β) : Decoder β :=
  fun buf =>
    match d buf with
    | .error e => .error e
    | .ok (a, r) => .ok (f a, r)

/-- Truncate a natural number to a byte, as storing into an octet does. -/
def mkByte (n : Nat) : Byte :=
  ⟨n % 256, Nat.mod_lt _ (by decide)⟩

/-- Modelled from the spec: `XdrTrait<uint32_t>::serialize` of `Xdr.h` is not
among the provided sources; spec section 4.1 defines u32 as 4 bytes,
big-endian, no padding. -/
def serU32 (n : U32) : Bytes :=
  [mkByte (n.val / 16777216), mkByte (n.val / 65536),
   mkByte (n.val / 256), mkByte n.val]

/-- Serialize a `Nat` as a u32, truncating modulo 2^32 as the C++ conversion
to `uint32_t` does (used for length fields of variable-length data). -/
def serU32n (n : Nat) : Bytes :=
  serU32 ⟨n % 4294967296, Nat.mod_lt _ (by decide)⟩

/-- Modelled from the spec: `XdrTrait<uint32_t>::deserialize` of `Xdr.h` is
not among the provided sources; spec section 4.1: read 4 big-endian bytes,
failing with `TruncatedInput` when fewer than 4 remain. -/
def deU32 : Decoder U32 :=
  fun buf =>
    match buf with
    | b0 :: b1 :: b2 :: b3 :: rest =>
      .ok (⟨b0.val * 16777216 + b1.val * 65536 + b2.val * 256 + b3.val, by
        have h0 := b0.isLt
        have h1 := b1.isLt
        have h2 := b2.isLt
        have h3 := b3.isLt
        omega⟩, rest)
    | _ => .error .truncated

theorem deU32_serU32 (n : U32) (extra : Bytes) :
    deU32 (serU32 n ++ extra) = .ok (n, extra) := by
  have h := n.isLt
  simp only [serU32, deU32, mkByte, List.cons_append, List.nil_append]
  congr 2
  apply Fin.ext
  simp only
  omega

theorem deU32_short (buf : Bytes) (h : buf.length < 4) :
    deU32 buf = .error .truncated := by
  match buf with
  | [] => rfl
  | [_] => rfl
  | [_, _] => rfl
  | [_, _, _] => rfl
  | _ :: _ :: _ :: _ :: _ => exact absurd h (by simp [List.length])

theorem serU32_length (n : U32) : (serU32 n).length = 4 := rfl

/-- The codec round-trip discipline: decoding the encoding of a well-formed
value, followed by any trailing bytes, returns the value and leaves the
trailing bytes unconsumed. -/
def SerDe {α : Type} (ser : α → Bytes) (de : Decoder α) (wf : α → Prop) : Prop :=
  ∀ (v : α) (extra : Bytes), wf v → de (ser v ++ extra) = .ok (v, extra)

/-- The truncation discipline: decoding from a buffer cut short anywhere
before the end of a well-formed value's full encoding fails with
`TruncatedInput`. -/
def SerTrunc {α : Type} (ser : α → Bytes) (de : Decoder α) (wf : α → Prop) : Prop :=
  ∀ (v : α) (n : Nat), wf v → n < (ser v).length →
    de ((ser v).take n) = .error .truncated

theorem dthen_ok {α β : Type} {d1 : Decoder α} {d2 : Decoder β}
    {buf r1 r2 : Bytes} {a : α} {b : β}
    (h1 : d1 buf = .ok (a, r1)) (h2 : d2 r1 = .ok (b, r2)) :
    dthen d1 d2 buf = .ok ((a, b), r2) := by
  simp [dthen, h1, h2]

theorem dthen_err1 {α β : Type} {d1 : Decoder α} {d2 : Decoder β}
    {buf : Bytes} {e : XdrError} (h1 : d1 buf = .error e) :
    dthen d1 d2 buf = .error e := by
  simp [dthen, h1]

theorem dthen_err2 {α β : Type} {d1 : Decoder α} {d2 : Decoder β}
    {buf r1 : Bytes} {a : α} {e : XdrError}
    (h1 : d1 buf = .ok (a, r1)) (h2 : d2 r1 = .error e) :
    dthen d1 d2 buf = .error e := by
  simp [dthen, h1, h2]

theorem dmap_ok {α β : Type} {d : Decoder α} {f : α → β}
    {buf r : Bytes} {a : α} (h : d buf = .ok (a, r)) :
    dmap d f buf = .ok (f a, r) := by
  simp [dmap, h]

theorem dmap_err {α β : Type} {d : Decoder α} {f : α → β}
    {buf : Bytes} {e : XdrError} (h : d buf = .error e) :
    dmap d f buf = .error e := by
  simp [dmap, h]

theorem serDe_dthen {α β : Type} {s1 : α → Bytes} {d1 : Decoder α} {w1 : α → Prop}
    {s2 : β → Bytes} {d2 : Decoder β} {w2 : β → Prop}
    (h1 : SerDe s1 d1 w1) (h2 : SerDe s2 d2 w2) :
    SerDe (fun p => s1 p.1 ++ s2 p.2) (dthen d1 d2) (fun p => w1 p.1 ∧ w2 p.2) := by
  rintro ⟨a, b⟩ extra ⟨ha, hb⟩
  simp only [List.append_assoc]
  exact dthen_ok (h1 a _ ha) (h2 b extra hb)

theorem serTrunc_dthen {α β : Type} {s1 : α → Bytes} {d1 : Decoder α} {w1 : α → Prop}
    {s2 : β → Bytes} {d2 : Decoder β} {w2 : β → Prop}
    (h1 : SerDe s1 d1 w1) (t1 : SerTrunc s1 d1 w1) (t2 : SerTrunc s2 d2 w2) :
    SerTrunc (fun p => s1 p.1 ++ s2 p.2) (dthen d1 d2) (fun p => w1 p.1 ∧ w2 p.2) := by
  rintro ⟨a, b⟩ n ⟨ha, hb⟩ hn
  simp only [List.length_append] at hn
  by_cases hcase : n < (s1 a).length
  · rw [List.take_append_of_le_length (Nat.le_of_lt hcase)]
    exact dthen_err1 (t1 a n ha hcase)
  · push_neg at hcase
    obtain ⟨m, rfl⟩ := Nat.exists_eq_add_of_le hcase
    rw [List.take_append]
    have hm : m < (s2 b).length := by omega
    have hfirst : d1 (s1 a ++ (s2 b).take m) = .ok (a, (s2 b).take m) :=
      h1 a _ ha
    exact dthen_err2 hfirst (t2 b m hb hm)

theorem serDe_dmap {α β : Type} {s : α → Bytes} {d : Decoder α} {w : α → Prop}
    (h : SerDe s d w) (f : α → β) (g : β → α) (hfg : ∀ b, f (g b) = b) :
    SerDe (fun b => s (g b)) (dmap d f) (fun b => w (g b)) := by
  intro v extra hv
  have := dmap_ok (f := f) (h (g v) extra hv)
  rwa [hfg] at this

theorem serTrunc_dmap {α β : Type} {s : α → Bytes} {d : Decoder α} {w : α → Prop}
    (t : SerTrunc s d w) (f : α → β) (g : β → α) :
    SerTrunc (fun b => s (g b)) (dmap d f) (fun b => w (g b)) := by
  intro v n hv hn
  exact dmap_err (t (g v) n hv hn)

theorem serDe_u32 : SerDe serU32 deU32 (fun _ => True) :=
  fun n extra _ => deU32_serU32 n extra

theorem serTrunc_u32 : SerTrunc serU32 deU32 (fun _ => True) := by
  intro v n _ hn
  rw [serU32_length] at hn
  apply deU32_short
  rw [List.length_take, serU32_length]
  omega

/-- Number of zero padding bytes after `l` bytes of data, to reach the next
4-byte boundary: `(4 - l % 4) % 4`. -/
def xdrPad (l : Nat) : Nat := (4 - l % 4) % 4

/-- Well-formedness of variable-length data: its length is representable in
the u32 length field. -/
def wfVarLen (d : Bytes) : Prop := d.length < 4294967296

instance (d : Bytes) : Decidable (wfVarLen d) := by
  unfold wfVarLen
  infer_instance

/-- Modelled from the spec: the variable-length opaque serializer of `Xdr.h`
(`XdrTrait` for `std::vector<uint8_t>` / `std::string`) is not among the
provided sources; spec section 4.1: u32 length L, then the L data bytes, then
zero padding to the next 4-byte boundary. -/
def serVarOpaque (d : Bytes) : Bytes :=
  serU32n d.length ++ d ++ List.replicate (xdrPad d.length) (0 : Byte)

/-- Modelled from the spec: the variable-length opaque deserializer of
`Xdr.h` is not among the provided sources; spec section 4.1: read the u32
length L, fail with `TruncatedInput` when fewer than L plus padding bytes
remain, otherwise take the L data bytes and consume the padding as well. -/
def deVarOpaque : Decoder Bytes :=
  fun buf =>
    match deU32 buf with
    | .error e => .error e
    | .ok (n, rest) =>
      if n.val + xdrPad n.val ≤ rest.length then
        .ok (rest.take n.val, rest.drop (n.val + xdrPad n.val))
      else
        .error .truncated

theorem serU32n_eq (l : Nat) (h : l < 4294967296) :
    serU32n l = serU32 ⟨l, h⟩ := by
  simp only [serU32n]
  congr 1
  exact Fin.ext (Nat.mod_eq_of_lt h)

theorem serVarOpaque_length (d : Bytes) :
    (serVarOpaque d).length = 4 + d.length + xdrPad d.length := by
  simp only [serVarOpaque, serU32n, List.length_append, List.length_replicate,
    serU32_length]

theorem serDe_varOpaque : SerDe serVarOpaque deVarOpaque wfVarLen := by
  intro d extra hd
  have hlen : d.length < 4294967296 := hd
  simp only [serVarOpaque, serU32n_eq d.length hlen, List.append_assoc]
  simp only [deVarOpaque, deU32_serU32]
  have hle : d.length + xdrPad d.length ≤
      (d ++ (List.replicate (xdrPad d.length) (0 : Byte) ++ extra)).length := by
    simp [List.length_append, List.length_replicate]
  rw [if_pos hle]
  have htake :
      List.take d.length (d ++ (List.replicate (xdrPad d.length) (0 : Byte) ++ extra)) = d :=
    List.take_left' rfl
  have hdrop :
      List.drop (d.length + xdrPad d.length)
        (d ++ (List.replicate (xdrPad d.length) (0 : Byte) ++ extra)) = extra := by
    rw [← List.append_assoc]
    exact List.drop_left' (by simp [List.length_append, List.length_replicate])
  rw [htake, hdrop]

theorem serTrunc_varOpaque : SerTrunc serVarOpaque deVarOpaque wfVarLen := by
  intro d n hd hn
  have hlen : d.length < 4294967296 := hd
  rw [serVarOpaque_length] at hn
  simp only [serVarOpaque, serU32n_eq d.length hlen, List.append_assoc]
  by_cases hcase : n < 4
  · rw [List.take_append_of_le_length (by rw [serU32_length]; omega)]
    simp only [deVarOpaque]
    rw [deU32_short _ (by rw [List.length_take, serU32_length]; omega)]
  · push_neg at hcase
    obtain ⟨m, rfl⟩ := Nat.exists_eq_add_of_le hcase
    have h4 : (serU32 ⟨d.length, hlen⟩).length + m = 4 + m := by
      rw [serU32_length]
    rw [← h4, List.take_append]
    simp only [deVarOpaque, deU32_serU32]
    rw [if_neg]
    rw [List.length_take]
    simp only [List.length_append, List.length_replicate]
    omega

/-- A generic XDR enum decoder over an ordinal-to-variant partial map.
Modelled from the spec: the enum `XdrTrait` of `Xdr.h` is not among the
provided sources; spec section 4.1: read a u32 and fail with
`InvalidEnumValue` when it matches no declared variant. -/
def deEnum {α : Type} (fromOrd : Nat → Option α) : Decoder α :=
  fun buf =>
    match deU32 buf with
    | .error e => .error e
    | .ok (n, rest) =>
      match fromOrd n.val with
      | some v => .ok (v, rest)
      | none => .error .invalidEnum

/-- A generic XDR enum serializer over a variant-to-ordinal map.  Modelled
from the spec: spec section 4.1, an enum is encoded as its u32 ordinal. -/
def serEnum {α : Type} (toOrd : α → Nat) (v : α) : Bytes :=
  serU32n (toOrd v)

theorem serDe_enum {α : Type} (toOrd : α → Nat) (fromOrd : Nat → Option α)
    (hsmall : ∀ v, toOrd v < 4294967296)
    (hinv : ∀ v, fromOrd (toOrd v) = some v) :
    SerDe (serEnum toOrd) (deEnum fromOrd) (fun _ => True) := by
  intro v extra _
  simp only [serEnum, serU32n_eq _ (hsmall v)]
  simp only [deEnum, deU32_serU32, hinv]

theorem serTrunc_enum {α : Type} (toOrd : α → Nat) (fromOrd : Nat → Option α) :
    SerTrunc (serEnum toOrd) (deEnum fromOrd) (fun _ => True) := by
  intro v n _ hn
  simp only [serEnum, serU32n, serU32_length] at hn
  simp only [deEnum]
  rw [deU32_short]
  rw [List.length_take]
  simp only [serEnum, serU32n, serU32_length]
  omega

theorem serEnum_length {α : Type} (toOrd : α → Nat) (v : α) :
    (serEnum toOrd v).length = 4 := rfl

/-- Decode exactly `n` consecutive u32 elements. -/
def deU32ListN : Nat → Decoder (List U32)
  | 0 => fun buf => .ok ([], buf)
  | Nat.succ k => fun buf =>
    match deU32 buf with
    | .error e => .error e
    | .ok (x, r) =>
      match deU32ListN k r with
      | .error e => .error e
      | .ok (xs, r2) => .ok (x :: xs, r2)

/-- Modelled from the spec: the sequence `XdrTrait` of `Xdr.h` (for
`std::vector<uint32_t>`) is not among the provided sources; spec section
4.1: u32 count C, then C consecutive element encodings. -/
def serU32List (l : List U32) : Bytes :=
  serU32n l.length ++ (l.map serU32).flatten

/-- Modelled from the spec: read the u32 count, then that many elements; a
failing element decode propagates its error. -/
def deU32List : Decoder (List U32) :=
  fun buf =>
    match deU32 buf with
    | .error e => .error e
    | .ok (n, rest) => deU32ListN n.val rest

theorem deU32ListN_flatten (l : List U32) (extra : Bytes) :
    deU32ListN l.length ((l.map serU32).flatten ++ extra) = .ok (l, extra) := by
  induction l with
  | nil => simp [deU32ListN]
  | cons x xs ih =>
    simp only [List.map_cons, List.flatten_cons, List.length_cons, List.append_assoc]
    simp only [deU32ListN, deU32_serU32, ih]

theorem flatten_serU32_length (l : List U32) :
    ((l.map serU32).flatten).length = 4 * l.length := by
  induction l with
  | nil => simp
  | cons x xs ih =>
    simp only [List.map_cons, List.flatten_cons, List.length_append, serU32_length,
      List.length_cons, ih]
    omega

/-- Well-formedness of a sequence: its element count is representable in the
u32 count field. -/
def wfCount (l : List U32) : Prop := l.length < 4294967296

instance (l : List U32) : Decidable (wfCount l) := by
  unfold wfCount
  infer_instance

theorem serU32n_length (n : Nat) : (serU32n n).length = 4 := rfl

theorem deU32ListN_trunc (l : List U32) (m : Nat) (hm : m < 4 * l.length) :
    deU32ListN l.length (((l.map serU32).flatten).take m) = .error .truncated := by
  induction l generalizing m with
  | nil => simp only [List.length_nil] at hm; omega
  | cons x xs ih =>
    simp only [List.map_cons, List.flatten_cons, List.length_cons]
    by_cases hcase : m < 4
    · rw [List.take_append_of_le_length (by rw [serU32_length]; omega)]
      simp only [deU32ListN]
      rw [deU32_short _ (by rw [List.length_take, serU32_length]; omega)]
    · push_neg at hcase
      obtain ⟨k, rfl⟩ := Nat.exists_eq_add_of_le hcase
      have h4 : (serU32 x).length + k = 4 + k := by rw [serU32_length]
      rw [← h4, List.take_append]
      simp only [deU32ListN, deU32_serU32]
      rw [ih k (by simp only [List.length_cons] at hm; omega)]

theorem serDe_u32List : SerDe serU32List deU32List wfCount := by
  intro l extra hl
  simp only [serU32List, serU32n_eq l.length hl, List.append_assoc]
  simp only [deU32List, deU32_serU32]
  exact deU32ListN_flatten l extra

theorem serU32List_length (l : List U32) :
    (serU32List l).length = 4 + 4 * l.length := by
  rw [serU32List, List.length_append, flatten_serU32_length, serU32n_length]

theorem serTrunc_u32List : SerTrunc serU32List deU32List wfCount := by
  intro l n hl hn
  rw [serU32List_length] at hn
  simp only [serU32List, serU32n_eq l.length hl]
  by_cases hcase : n < 4
  · rw [List.take_append_of_le_length (by rw [serU32_length]; omega)]
    simp only [deU32List]
    rw [deU32_short _ (by rw [List.length_take, serU32_length]; omega)]
  · push_neg at hcase
    obtain ⟨m, rfl⟩ := Nat.exists_eq_add_of_le hcase
    have h4 : (serU32 ⟨l.length, hl⟩).length + m = 4 + m := by rw [serU32_length]
    rw [← h4, List.take_append]
    simp only [deU32List, deU32_serU32]
    exact deU32ListN_trunc l m (by omega)

/-- The `auth_flavor` enumeration of `Rpc.h`.  `AUTH_UNIX` is declared in the
source as a second name for the same ordinal 1 as `AUTH_SYS`, so it is the
same value here. -/
inductive auth_flavor : Type where
  | AUTH_NONE
  | AUTH_SYS
  | AUTH_SHORT
  | AUTH_DH
  | RPCSEC_GSS
deriving DecidableEq

/-- Ordinals of `auth_flavor` as declared in `Rpc.h`. -/
def auth_flavor.toOrdinal : auth_flavor → Nat
  | .AUTH_NONE => 0
  | .AUTH_SYS => 1
  | .AUTH_SHORT => 2
  | .AUTH_DH => 3
  | .RPCSEC_GSS => 6

/-- Partial inverse of `auth_flavor.toOrdinal`: the declared variants only. -/
def auth_flavor.fromOrdinal : Nat → Option auth_flavor
  | 0 => some .AUTH_NONE
  | 1 => some .AUTH_SYS
  | 2 => some .AUTH_SHORT
  | 3 => some .AUTH_DH
  | 6 => some .RPCSEC_GSS
  | _ => none

/-- The `msg_type` enumeration of `Rpc.h`: CALL = 0, REPLY = 1. -/
inductive msg_type : Type where
  | CALL
  | REPLY
deriving DecidableEq

def msg_type.toOrdinal : msg_type → Nat
  | .CALL => 0
  | .REPLY => 1

def msg_type.fromOrdinal : Nat → Option msg_type
  | 0 => some .CALL
  | 1 => some .REPLY
  | _ => none

/-- The `reply_stat` enumeration of `Rpc.h`: MSG_ACCEPTED = 0,
MSG_DENIED = 1. -/
inductive reply_stat : Type where
  | MSG_ACCEPTED
  | MSG_DENIED
deriving DecidableEq

def reply_stat.toOrdinal : reply_stat → Nat
  | .MSG_ACCEPTED => 0
  | .MSG_DENIED => 1

def reply_stat.fromOrdinal : Nat → Option reply_stat
  | 0 => some .MSG_ACCEPTED
  | 1 => some .MSG_DENIED
  | _ => none

/-- The `accept_stat` enumeration of `Rpc.h`: SUCCESS = 0 through
SYSTEM_ERR = 5. -/
inductive accept_stat : Type where
  | SUCCESS
  | PROG_UNAVAIL
  | PROG_MISMATCH
  | PROC_UNAVAIL
  | GARBAGE_ARGS
  | SYSTEM_ERR
deriving DecidableEq

def accept_stat.toOrdinal : accept_stat → Nat
  | .SUCCESS => 0
  | .PROG_UNAVAIL => 1
  | .PROG_MISMATCH => 2
  | .PROC_UNAVAIL => 3
  | .GARBAGE_ARGS => 4
  | .SYSTEM_ERR => 5

def accept_stat.fromOrdinal : Nat → Option accept_stat
  | 0 => some .SUCCESS
  | 1 => some .PROG_UNAVAIL
  | 2 => some .PROG_MISMATCH
  | 3 => some .PROC_UNAVAIL
  | 4 => some .GARBAGE_ARGS
  | 5 => some .SYSTEM_ERR
  | _ => none

/-- The `reject_stat` enumeration of `Rpc.h`: RPC_MISMATCH = 0,
AUTH_ERROR = 1. -/
inductive reject_stat : Type where
  | RPC_MISMATCH
  | AUTH_ERROR
deriving DecidableEq

def reject_stat.toOrdinal : reject_stat → Nat
  | .RPC_MISMATCH => 0
  | .AUTH_ERROR => 1

def reject_stat.fromOrdinal : Nat → Option reject_stat
  | 0 => some .RPC_MISMATCH
  | 1 => some .AUTH_ERROR
  | _ => none

/-- The `auth_stat` enumeration of `Rpc.h`: AUTH_OK = 0 through
RPCSEC_GSS_CTXPROBLEM = 14. -/
inductive auth_stat : Type where
  | AUTH_OK
  | AUTH_BADCRED
  | AUTH_REJECTEDCRED
  | AUTH_BADVERF
  | AUTH_REJECTEDVERF
  | AUTH_TOOWEAK
  | AUTH_INVALIDRESP
  | AUTH_FAILED
  | AUTH_KERB_GENERIC
  | AUTH_TIMEEXPIRE
  | AUTH_TKT_FILE
  | AUTH_DECODE
  | AUTH_NET_ADDR
  | RPCSEC_GSS_CREDPROBLEM
  | RPCSEC_GSS_CTXPROBLEM
deriving DecidableEq

def auth_stat.toOrdinal : auth_stat → Nat
  | .AUTH_OK => 0
  | .AUTH_BADCRED => 1
  | .AUTH_REJECTEDCRED => 2
  | .AUTH_BADVERF => 3
  | .AUTH_REJECTEDVERF => 4
  | .AUTH_TOOWEAK => 5
  | .AUTH_INVALIDRESP => 6
  | .AUTH_FAILED => 7
  | .AUTH_KERB_GENERIC => 8
  | .AUTH_TIMEEXPIRE => 9
  | .AUTH_TKT_FILE => 10
  | .AUTH_DECODE => 11
  | .AUTH_NET_ADDR => 12
  | .RPCSEC_GSS_CREDPROBLEM => 13
  | .RPCSEC_GSS_CTXPROBLEM => 14

def auth_stat.fromOrdinal : Nat → Option auth_stat
  | 0 => some .AUTH_OK
  | 1 => some .AUTH_BADCRED
  | 2 => some .AUTH_REJECTEDCRED
  | 3 => some .AUTH_BADVERF
  | 4 => some .AUTH_REJECTEDVERF
  | 5 => some .AUTH_TOOWEAK
  | 6 => some .AUTH_INVALIDRESP
  | 7 => some .AUTH_FAILED
  | 8 => some .AUTH_KERB_GENERIC
  | 9 => some .AUTH_TIMEEXPIRE
  | 10 => some .AUTH_TKT_FILE
  | 11 => some .AUTH_DECODE
  | 12 => some .AUTH_NET_ADDR
  | 13 => some .RPCSEC_GSS_CREDPROBLEM
  | 14 => some .RPCSEC_GSS_CTXPROBLEM
  | _ => none

def serAuthFlavor : auth_flavor → Bytes := serEnum auth_flavor.toOrdinal

def deAuthFlavor : Decoder auth_flavor := deEnum auth_flavor.fromOrdinal

theorem serDe_authFlavor : SerDe serAuthFlavor deAuthFlavor (fun _ => True) :=
  serDe_enum _ _ (fun v => by cases v <;> decide) (fun v => by cases v <;> rfl)

theorem serTrunc_authFlavor : SerTrunc serAuthFlavor deAuthFlavor (fun _ => True) :=
  serTrunc_enum _ _

def serMsgType : msg_type → Bytes := serEnum msg_type.toOrdinal

def deMsgType : Decoder msg_type := deEnum msg_type.fromOrdinal

theorem serDe_msgType : SerDe serMsgType deMsgType (fun _ => True) :=
  serDe_enum _ _ (fun v => by cases v <;> decide) (fun v => by cases v <;> rfl)

theorem serTrunc_msgType : SerTrunc serMsgType deMsgType (fun _ => True) :=
  serTrunc_enum _ _

def serReplyStat : reply_stat → Bytes := serEnum reply_stat.toOrdinal

def deReplyStat : Decoder reply_stat := deEnum reply_stat.fromOrdinal

theorem serDe_replyStat : SerDe serReplyStat deReplyStat (fun _ => True) :=
  serDe_enum _ _ (fun v => by cases v <;> decide) (fun v => by cases v <;> rfl)

theorem serTrunc_replyStat : SerTrunc serReplyStat deReplyStat (fun _ => True) :=
  serTrunc_enum _ _

def serAcceptStat : accept_stat → Bytes := serEnum accept_stat.toOrdinal

def deAcceptStat : Decoder accept_stat := deEnum accept_stat.fromOrdinal

theorem serDe_acceptStat : SerDe serAcceptStat deAcceptStat (fun _ => True) :=
  serDe_enum _ _ (fun v => by cases v <;> decide) (fun v => by cases v <;> rfl)

theorem serTrunc_acceptStat : SerTrunc serAcceptStat deAcceptStat (fun _ => True) :=
  serTrunc_enum _ _

def serRejectStat : reject_stat → Bytes := serEnum reject_stat.toOrdinal

def deRejectStat : Decoder reject_stat := deEnum reject_stat.fromOrdinal

theorem serDe_rejectStat : SerDe serRejectStat deRejectStat (fun _ => True) :=
  serDe_enum _ _ (fun v => by cases v <;> decide) (fun v => by cases v <;> rfl)

theorem serTrunc_rejectStat : SerTrunc serRejectStat deRejectStat (fun _ => True) :=
  serTrunc_enum _ _

def serAuthStat : auth_stat → Bytes := serEnum auth_stat.toOrdinal

def deAuthStat : Decoder auth_stat := deEnum auth_stat.fromOrdinal

theorem serDe_authStat : SerDe serAuthStat deAuthStat (fun _ => True) :=
  serDe_enum _ _ (fun v => by cases v <;> decide) (fun v => by cases v <;> rfl)

theorem serTrunc_authStat : SerTrunc serAuthStat deAuthStat (fun _ => True) :=
  serTrunc_enum _ _

theorem serAuthFlavor_length (v : auth_flavor) : (serAuthFlavor v).length = 4 := rfl

theorem serMsgType_length (v : msg_type) : (serMsgType v).length = 4 := rfl

theorem serReplyStat_length (v : reply_stat) : (serReplyStat v).length = 4 := rfl

theorem serAcceptStat_length (v : accept_stat) : (serAcceptStat v).length = 4 := rfl

theorem serRejectStat_length (v : reject_stat) : (serRejectStat v).length = 4 := rfl

theorem serAuthStat_length (v : auth_stat) : (serAuthStat v).length = 4 := rfl

/-- The `opaque_auth` structure of `Rpc.h`: an auth flavor and a
variable-length opaque body, serialized in that order
(`EDEN_XDR_SERDE_DECL(opaque_auth, flavor, body)`). -/
structure opaque_auth : Type where
  flavor : auth_flavor
  body : Bytes
deriving DecidableEq

def opaque_auth.serialize (a : opaque_auth) : Bytes :=
  serAuthFlavor a.flavor ++ serVarOpaque a.body

def opaque_auth.deserialize : Decoder opaque_auth :=
  dmap (dthen deAuthFlavor deVarOpaque) (fun p => opaque_auth.mk p.1 p.2)

/-- Well-formed `opaque_auth`: the body length fits the u32 length field. -/
def wf_opaque_auth (a : opaque_auth) : Prop := wfVarLen a.body

instance (a : opaque_auth) : Decidable (wf_opaque_auth a) := by
  unfold wf_opaque_auth
  infer_instance

theorem serDe_opaque_auth :
    SerDe opaque_auth.serialize opaque_auth.deserialize wf_opaque_auth := by
  intro v extra hv
  have h := serDe_dmap (serDe_dthen serDe_authFlavor serDe_varOpaque)
    (fun p : auth_flavor × Bytes => opaque_auth.mk p.1 p.2)
    (fun a => (a.flavor, a.body)) (fun _ => rfl)
  exact h v extra ⟨trivial, hv⟩

theorem serTrunc_opaque_auth :
    SerTrunc opaque_auth.serialize opaque_auth.deserialize wf_opaque_auth := by
  intro v n hv hn
  have h := serTrunc_dmap
    (serTrunc_dthen serDe_authFlavor serTrunc_authFlavor serTrunc_varOpaque)
    (fun p : auth_flavor × Bytes => opaque_auth.mk p.1 p.2)
    (fun a => (a.flavor, a.body))
  exact h v n ⟨trivial, hv⟩ hn

/-- The `mismatch_info` structure of `Rpc.h`: the low and high supported
versions, serialized in that order
(`EDEN_XDR_SERDE_DECL(mismatch_info, low, high)`). -/
structure mismatch_info : Type where
  low : U32
  high : U32
deriving DecidableEq

def mismatch_info.serialize (m : mismatch_info) : Bytes :=
  serU32 m.low ++ serU32 m.high

def mismatch_info.deserialize : Decoder mismatch_info :=
  dmap (dthen deU32 deU32) (fun p => mismatch_info.mk p.1 p.2)

theorem serDe_mismatch_info :
    SerDe mismatch_info.serialize mismatch_info.deserialize (fun _ => True) := by
  intro v extra _
  have h := serDe_dmap (serDe_dthen serDe_u32 serDe_u32)
    (fun p : U32 × U32 => mismatch_info.mk p.1 p.2)
    (fun m => (m.low, m.high)) (fun _ => rfl)
  exact h v extra ⟨trivial, trivial⟩

theorem serTrunc_mismatch_info :
    SerTrunc mismatch_info.serialize mismatch_info.deserialize (fun _ => True) := by
  intro v n _ hn
  have h := serTrunc_dmap (serTrunc_dthen serDe_u32 serTrunc_u32 serTrunc_u32)
    (fun p : U32 × U32 => mismatch_info.mk p.1 p.2)
    (fun m => (m.low, m.high))
  exact h v n ⟨trivial, trivial⟩ hn

/-- The `call_body` structure of `Rpc.h`: rpcvers, prog, vers, proc, cred,
verf, serialized in that order
(`EDEN_XDR_SERDE_DECL(call_body, rpcvers, prog, vers, proc, cred, verf)`).
The source comments that `rpcvers` must equal `kRPCVersion = 2`, but the
codec itself gives the field no special treatment. -/
structure call_body : Type where
  rpcvers : U32
  prog : U32
  vers : U32
  proc : U32
  cred : opaque_auth
  verf : opaque_auth
deriving DecidableEq

def call_body.serialize (c : call_body) : Bytes :=
  serU32 c.rpcvers ++ serU32 c.prog ++ serU32 c.vers ++ serU32 c.proc ++
    opaque_auth.serialize c.cred ++ opaque_auth.serialize c.verf

def call_body.deserialize : Decoder call_body :=
  dmap (dthen deU32 (dthen deU32 (dthen deU32 (dthen deU32
      (dthen opaque_auth.deserialize opaque_auth.deserialize)))))
    (fun p => call_body.mk p.1 p.2.1 p.2.2.1 p.2.2.2.1 p.2.2.2.2.1 p.2.2.2.2.2)

/-- Well-formed `call_body`: both auth fields are well-formed. -/
def wf_call_body (c : call_body) : Prop :=
  wf_opaque_auth c.cred ∧ wf_opaque_auth c.verf

instance (c : call_body) : Decidable (wf_call_body c) := by
  unfold wf_call_body
  infer_instance

theorem serDe_call_body :
    SerDe call_body.serialize call_body.deserialize wf_call_body := by
  intro v extra hv
  have h := serDe_dmap
    (serDe_dthen serDe_u32 (serDe_dthen serDe_u32 (serDe_dthen serDe_u32
      (serDe_dthen serDe_u32 (serDe_dthen serDe_opaque_auth serDe_opaque_auth)))))
    (fun p : U32 × U32 × U32 × U32 × opaque_auth × opaque_auth =>
      call_body.mk p.1 p.2.1 p.2.2.1 p.2.2.2.1 p.2.2.2.2.1 p.2.2.2.2.2)
    (fun c => (c.rpcvers, c.prog, c.vers, c.proc, c.cred, c.verf)) (fun _ => rfl)
  exact h v extra ⟨trivial, trivial, trivial, trivial, hv.1, hv.2⟩

theorem serTrunc_call_body :
    SerTrunc call_body.serialize call_body.deserialize wf_call_body := by
  intro v n hv hn
  have h := serTrunc_dmap
    (serTrunc_dthen serDe_u32 serTrunc_u32 (serTrunc_dthen serDe_u32 serTrunc_u32
      (serTrunc_dthen serDe_u32 serTrunc_u32 (serTrunc_dthen serDe_u32 serTrunc_u32
        (serTrunc_dthen serDe_opaque_auth serTrunc_opaque_auth serTrunc_opaque_auth)))))
    (fun p : U32 × U32 × U32 × U32 × opaque_auth × opaque_auth =>
      call_body.mk p.1 p.2.1 p.2.2.1 p.2.2.2.1 p.2.2.2.2.1 p.2.2.2.2.2)
    (fun c => (c.rpcvers, c.prog, c.vers, c.proc, c.cred, c.verf))
  exact h v n ⟨trivial, trivial, trivial, trivial, hv.1, hv.2⟩ hn

/-- The `rpc_msg_call` structure of `Rpc.h`: xid, mtype, cbody, serialized in
that order (`EDEN_XDR_SERDE_DECL(rpc_msg_call, xid, mtype, cbody)`). -/
structure rpc_msg_call : Type where
  xid : U32
  mtype : msg_type
  cbody : call_body
deriving DecidableEq

def rpc_msg_call.serialize (m : rpc_msg_call) : Bytes :=
  serU32 m.xid ++ serMsgType m.mtype ++ call_body.serialize m.cbody

def rpc_msg_call.deserialize : Decoder rpc_msg_call :=
  dmap (dthen deU32 (dthen deMsgType call_body.deserialize))
    (fun p => rpc_msg_call.mk p.1 p.2.1 p.2.2)

/-- Well-formed `rpc_msg_call`: its call body is well-formed. -/
def wf_rpc_msg_call (m : rpc_msg_call) : Prop := wf_call_body m.cbody

instance (m : rpc_msg_call) : Decidable (wf_rpc_msg_call m) := by
  unfold wf_rpc_msg_call
  infer_instance

theorem serDe_rpc_msg_call :
    SerDe rpc_msg_call.serialize rpc_msg_call.deserialize wf_rpc_msg_call := by
  intro v extra hv
  have h := serDe_dmap
    (serDe_dthen serDe_u32 (serDe_dthen serDe_msgType serDe_call_body))
    (fun p : U32 × msg_type × call_body => rpc_msg_call.mk p.1 p.2.1 p.2.2)
    (fun m => (m.xid, m.mtype, m.cbody)) (fun _ => rfl)
  exact h v extra ⟨trivial, trivial, hv⟩

theorem serTrunc_rpc_msg_call :
    SerTrunc rpc_msg_call.serialize rpc_msg_call.deserialize wf_rpc_msg_call := by
  intro v n hv hn
  have h := serTrunc_dmap
    (serTrunc_dthen serDe_u32 serTrunc_u32
      (serTrunc_dthen serDe_msgType serTrunc_msgType serTrunc_call_body))
    (fun p : U32 × msg_type × call_body => rpc_msg_call.mk p.1 p.2.1 p.2.2)
    (fun m => (m.xid, m.mtype, m.cbody))
  exact h v n ⟨trivial, trivial, hv⟩ hn

/-- The `accepted_reply` structure of `Rpc.h`: verf, stat, serialized in that
order (`EDEN_XDR_SERDE_DECL(accepted_reply, verf, stat)`). -/
structure accepted_reply : Type where
  verf : opaque_auth
  stat : accept_stat
deriving DecidableEq

def accepted_reply.serialize (r : accepted_reply) : Bytes :=
  opaque_auth.serialize r.verf ++ serAcceptStat r.stat

def accepted_reply.deserialize : Decoder accepted_reply :=
  dmap (dthen opaque_auth.deserialize deAcceptStat)
    (fun p => accepted_reply.mk p.1 p.2)

/-- Well-formed `accepted_reply`: its verifier is well-formed. -/
def wf_accepted_reply (r : accepted_reply) : Prop := wf_opaque_auth r.verf

instance (r : accepted_reply) : Decidable (wf_accepted_reply r) := by
  unfold wf_accepted_reply
  infer_instance

theorem serDe_accepted_reply :
    SerDe accepted_reply.serialize accepted_reply.deserialize wf_accepted_reply := by
  intro v extra hv
  have h := serDe_dmap (serDe_dthen serDe_opaque_auth serDe_acceptStat)
    (fun p : opaque_auth × accept_stat => accepted_reply.mk p.1 p.2)
    (fun r => (r.verf, r.stat)) (fun _ => rfl)
  exact h v extra ⟨hv, trivial⟩

theorem serTrunc_accepted_reply :
    SerTrunc accepted_reply.serialize accepted_reply.deserialize wf_accepted_reply := by
  intro v n hv hn
  have h := serTrunc_dmap
    (serTrunc_dthen serDe_opaque_auth serTrunc_opaque_auth serTrunc_acceptStat)
    (fun p : opaque_auth × accept_stat => accepted_reply.mk p.1 p.2)
    (fun r => (r.verf, r.stat))
  exact h v n ⟨hv, trivial⟩ hn

/-- Modelled from the spec: the `rejected_reply` of `Rpc.h` derives from
`XdrVariant<reject_stat, mismatch_info, auth_stat>` whose definition in
`Xdr.h` is not among the provided sources; spec section 3 states the payload
shape is fully determined by the tag and no other combination is
constructible, so the union is modelled as a sum with one case per
discriminant (RPC_MISMATCH carries `mismatch_info`, AUTH_ERROR carries
`auth_stat`). -/
inductive rejected_reply : Type where
  | Mismatch (info : mismatch_info)
  | AuthError (stat : auth_stat)
deriving DecidableEq

/-- The discriminant carried by a `rejected_reply` value, the `tag` field of
the source's `XdrVariant` base. -/
def rejected_reply.tag : rejected_reply → reject_stat
  | .Mismatch _ => .RPC_MISMATCH
  | .AuthError _ => .AUTH_ERROR

/-- Modelled from the spec: union encode per spec section 4.2 writes the
discriminant, then the active payload with the payload type's own rule. -/
def rejected_reply.serialize : rejected_reply → Bytes
  | .Mismatch info => serRejectStat .RPC_MISMATCH ++ mismatch_info.serialize info
  | .AuthError stat => serRejectStat .AUTH_ERROR ++ serAuthStat stat

/-- The deserializer of `XdrTrait<rejected_reply>` in `Rpc.h`: read the
`reject_stat` tag, then switch on it to decode the matching payload. -/
def rejected_reply.deserialize : Decoder rejected_reply :=
  fun buf =>
    match deRejectStat buf with
    | .error e => .error e
    | .ok (tag, rest) =>
      match tag with
      | .RPC_MISMATCH => dmap mismatch_info.deserialize rejected_reply.Mismatch rest
      | .AUTH_ERROR => dmap deAuthStat rejected_reply.AuthError rest

theorem serDe_rejected_reply :
    SerDe rejected_reply.serialize rejected_reply.deserialize (fun _ => True) := by
  rintro (info | stat) extra _
  · simp only [rejected_reply.serialize, List.append_assoc, rejected_reply.deserialize,
      serDe_rejectStat .RPC_MISMATCH _ trivial]
    exact dmap_ok (serDe_mismatch_info info extra trivial)
  · simp only [rejected_reply.serialize, List.append_assoc, rejected_reply.deserialize,
      serDe_rejectStat .AUTH_ERROR _ trivial]
    exact dmap_ok (serDe_authStat stat extra trivial)

theorem serTrunc_rejected_reply :
    SerTrunc rejected_reply.serialize rejected_reply.deserialize (fun _ => True) := by
  rintro (info | stat) n _ hn <;>
    simp only [rejected_reply.serialize, List.length_append, serRejectStat_length,
      serAuthStat_length] at hn ⊢
  · by_cases hcase : n < 4
    · rw [List.take_append_of_le_length (by rw [serRejectStat_length]; omega)]
      simp only [rejected_reply.deserialize]
      rw [serTrunc_rejectStat .RPC_MISMATCH n trivial (by rw [serRejectStat_length]; omega)]
    · push_neg at hcase
      obtain ⟨m, rfl⟩ := Nat.exists_eq_add_of_le hcase
      have h4 : (serRejectStat .RPC_MISMATCH).length + m = 4 + m := by
        rw [serRejectStat_length]
      rw [← h4, List.take_append]
      simp only [rejected_reply.deserialize,
        serDe_rejectStat .RPC_MISMATCH _ trivial]
      exact dmap_err (serTrunc_mismatch_info info m trivial (by
        simp only [mismatch_info.serialize, List.length_append, serU32_length] at hn ⊢
        omega))
  · by_cases hcase : n < 4
    · rw [List.take_append_of_le_length (by rw [serRejectStat_length]; omega)]
      simp only [rejected_reply.deserialize]
      rw [serTrunc_rejectStat .AUTH_ERROR n trivial (by rw [serRejectStat_length]; omega)]
    · push_neg at hcase
      obtain ⟨m, rfl⟩ := Nat.exists_eq_add_of_le hcase
      have h4 : (serRejectStat .AUTH_ERROR).length + m = 4 + m := by
        rw [serRejectStat_length]
      rw [← h4, List.take_append]
      simp only [rejected_reply.deserialize,
        serDe_rejectStat .AUTH_ERROR _ trivial]
      exact dmap_err (serTrunc_authStat stat m trivial (by
        rw [serAuthStat_length]
        omega))

/-- Modelled from the spec: the `reply_body` of `Rpc.h` derives from
`XdrVariant<reply_stat, accepted_reply, rejected_reply>` whose definition in
`Xdr.h` is not among the provided sources; per spec section 3 the payload
shape is fully determined by the tag (MSG_ACCEPTED carries `accepted_reply`,
MSG_DENIED carries `rejected_reply`). -/
inductive reply_body : Type where
  | Accepted (areply : accepted_reply)
  | Denied (rreply : rejected_reply)
deriving DecidableEq

/-- The discriminant carried by a `reply_body` value, the `tag` field of the
source's `XdrVariant` base. -/
def reply_body.tag : reply_body → reply_stat
  | .Accepted _ => .MSG_ACCEPTED
  | .Denied _ => .MSG_DENIED

/-- Modelled from the spec: union encode per spec section 4.2 writes the
discriminant, then the active payload with the payload type's own rule. -/
def reply_body.serialize : reply_body → Bytes
  | .Accepted areply => serReplyStat .MSG_ACCEPTED ++ accepted_reply.serialize areply
  | .Denied rreply => serReplyStat .MSG_DENIED ++ rejected_reply.serialize rreply

/-- The deserializer of `XdrTrait<reply_body>` in `Rpc.h`: read the
`reply_stat` tag, then switch on it to decode the matching payload. -/
def reply_body.deserialize : Decoder reply_body :=
  fun buf =>
    match deReplyStat buf with
    | .error e => .error e
    | .ok (tag, rest) =>
      match tag with
      | .MSG_ACCEPTED => dmap accepted_reply.deserialize reply_body.Accepted rest
      | .MSG_DENIED => dmap rejected_reply.deserialize reply_body.Denied rest

/-- Well-formed `reply_body`: an accepted reply's verifier is
well-formed. -/
def wf_reply_body : reply_body → Prop
  | .Accepted areply => wf_accepted_reply areply
  | .Denied _ => True

instance (b : reply_body) : Decidable (wf_reply_body b) := by
  cases b <;> (unfold wf_reply_body; infer_instance)

theorem serDe_reply_body :
    SerDe reply_body.serialize reply_body.deserialize wf_reply_body := by
  rintro (areply | rreply) extra hv
  · simp only [reply_body.serialize, List.append_assoc, reply_body.deserialize,
      serDe_replyStat .MSG_ACCEPTED _ trivial]
    exact dmap_ok (serDe_accepted_reply areply extra hv)
  · simp only [reply_body.serialize, List.append_assoc, reply_body.deserialize,
      serDe_replyStat .MSG_DENIED _ trivial]
    exact dmap_ok (serDe_rejected_reply rreply extra trivial)

theorem serTrunc_reply_body :
    SerTrunc reply_body.serialize reply_body.deserialize wf_reply_body := by
  rintro (areply | rreply) n hv hn <;>
    simp only [reply_body.serialize, List.length_append, serReplyStat_length] at hn ⊢
  · by_cases hcase : n < 4
    · rw [List.take_append_of_le_length (by rw [serReplyStat_length]; omega)]
      simp only [reply_body.deserialize]
      rw [serTrunc_replyStat .MSG_ACCEPTED n trivial (by rw [serReplyStat_length]; omega)]
    · push_neg at hcase
      obtain ⟨m, rfl⟩ := Nat.exists_eq_add_of_le hcase
      have h4 : (serReplyStat .MSG_ACCEPTED).length + m = 4 + m := by
        rw [serReplyStat_length]
      rw [← h4, List.take_append]
      simp only [reply_body.deserialize, serDe_replyStat .MSG_ACCEPTED _ trivial]
      exact dmap_err (serTrunc_accepted_reply areply m hv (by omega))
  · by_cases hcase : n < 4
    · rw [List.take_append_of_le_length (by rw [serReplyStat_length]; omega)]
      simp only [reply_body.deserialize]
      rw [serTrunc_replyStat .MSG_DENIED n trivial (by rw [serReplyStat_length]; omega)]
    · push_neg at hcase
      obtain ⟨m, rfl⟩ := Nat.exists_eq_add_of_le hcase
      have h4 : (serReplyStat .MSG_DENIED).length + m = 4 + m := by
        rw [serReplyStat_length]
      rw [← h4, List.take_append]
      simp only [reply_body.deserialize, serDe_replyStat .MSG_DENIED _ trivial]
      exact dmap_err (serTrunc_rejected_reply rreply m trivial (by omega))

/-- The `rpc_msg_reply` structure of `Rpc.h`: xid, mtype, rbody, serialized
in that order (`EDEN_XDR_SERDE_DECL(rpc_msg_reply, xid, mtype, rbody)`). -/
structure rpc_msg_reply : Type where
  xid : U32
  mtype : msg_type
  rbody : reply_body
deriving DecidableEq

def rpc_msg_reply.serialize (m : rpc_msg_reply) : Bytes :=
  serU32 m.xid ++ serMsgType m.mtype ++ reply_body.serialize m.rbody

def rpc_msg_reply.deserialize : Decoder rpc_msg_reply :=
  dmap (dthen deU32 (dthen deMsgType reply_body.deserialize))
    (fun p => rpc_msg_reply.mk p.1 p.2.1 p.2.2)

/-- Well-formed `rpc_msg_reply`: its reply body is well-formed. -/
def wf_rpc_msg_reply (m : rpc_msg_reply) : Prop := wf_reply_body m.rbody

instance (m : rpc_msg_reply) : Decidable (wf_rpc_msg_reply m) := by
  unfold wf_rpc_msg_reply
  infer_instance

theorem serDe_rpc_msg_reply :
    SerDe rpc_msg_reply.serialize rpc_msg_reply.deserialize wf_rpc_msg_reply := by
  intro v extra hv
  have h := serDe_dmap
    (serDe_dthen serDe_u32 (serDe_dthen serDe_msgType serDe_reply_body))
    (fun p : U32 × msg_type × reply_body => rpc_msg_reply.mk p.1 p.2.1 p.2.2)
    (fun m => (m.xid, m.mtype, m.rbody)) (fun _ => rfl)
  exact h v extra ⟨trivial, trivial, hv⟩

theorem serTrunc_rpc_msg_reply :
    SerTrunc rpc_msg_reply.serialize rpc_msg_reply.deserialize wf_rpc_msg_reply := by
  intro v n hv hn
  have h := serTrunc_dmap
    (serTrunc_dthen serDe_u32 serTrunc_u32
      (serTrunc_dthen serDe_msgType serTrunc_msgType serTrunc_reply_body))
    (fun p : U32 × msg_type × reply_body => rpc_msg_reply.mk p.1 p.2.1 p.2.2)
    (fun m => (m.xid, m.mtype, m.rbody))
  exact h v n ⟨trivial, trivial, hv⟩ hn

/-- The `authsys_parms` structure of `Rpc.h`: stamp, machinename, uid, gid,
gids, serialized in that order (`EDEN_XDR_SERDE_DECL(authsys_parms, stamp,
machinename, uid, gid, gids)`).  The machine name is a `std::string` on the
wire as an XDR string, modelled as its byte contents since the XDR string
rule of spec section 4.1 coincides with the variable-length opaque rule. -/
structure authsys_parms : Type where
  stamp : U32
  machinename : Bytes
  uid : U32
  gid : U32
  gids : List U32
deriving DecidableEq

def authsys_parms.serialize (p : authsys_parms) : Bytes :=
  serU32 p.stamp ++ (serVarOpaque p.machinename ++ (serU32 p.uid ++ (serU32 p.gid ++
    serU32List p.gids)))

def authsys_parms.deserialize : Decoder authsys_parms :=
  dmap (dthen deU32 (dthen deVarOpaque (dthen deU32 (dthen deU32 deU32List))))
    (fun p => authsys_parms.mk p.1 p.2.1 p.2.2.1 p.2.2.2.1 p.2.2.2.2)

/-- Well-formed `authsys_parms`: the machine-name length and the group count
fit their u32 length fields. -/
def wf_authsys_parms (p : authsys_parms) : Prop :=
  wfVarLen p.machinename ∧ wfCount p.gids

instance (p : authsys_parms) : Decidable (wf_authsys_parms p) := by
  unfold wf_authsys_parms
  infer_instance

theorem serDe_authsys_parms :
    SerDe authsys_parms.serialize authsys_parms.deserialize wf_authsys_parms := by
  intro v extra hv
  have h := serDe_dmap
    (serDe_dthen serDe_u32 (serDe_dthen serDe_varOpaque (serDe_dthen serDe_u32
      (serDe_dthen serDe_u32 serDe_u32List))))
    (fun p : U32 × Bytes × U32 × U32 × List U32 =>
      authsys_parms.mk p.1 p.2.1 p.2.2.1 p.2.2.2.1 p.2.2.2.2)
    (fun a => (a.stamp, a.machinename, a.uid, a.gid, a.gids)) (fun _ => rfl)
  exact h v extra ⟨trivial, hv.1, trivial, trivial, hv.2⟩

theorem serTrunc_authsys_parms :
    SerTrunc authsys_parms.serialize authsys_parms.deserialize wf_authsys_parms := by
  intro v n hv hn
  have h := serTrunc_dmap
    (serTrunc_dthen serDe_u32 serTrunc_u32
      (serTrunc_dthen serDe_varOpaque serTrunc_varOpaque
        (serTrunc_dthen serDe_u32 serTrunc_u32
          (serTrunc_dthen serDe_u32 serTrunc_u32 serTrunc_u32List))))
    (fun p : U32 × Bytes × U32 × U32 × List U32 =>
      authsys_parms.mk p.1 p.2.1 p.2.2.1 p.2.2.2.1 p.2.2.2.2)
    (fun a => (a.stamp, a.machinename, a.uid, a.gid, a.gids))
  exact h v n ⟨trivial, hv.1, trivial, trivial, hv.2⟩ hn

/-- Modelled from the spec: the `EDEN_XDR_SERDE_IMPL` instantiations that
define `operator==` live in `Rpc.cpp`, which is not among the provided
sources; each is the `EDEN_XDR_EQ` field-wise conjunction (`a.f == b.f &&`
per field, closed by the literal `1`) over the same field list the header's
`EDEN_XDR_SERDE_DECL` fixes. -/
def opaque_auth.eqOp (a b : opaque_auth) : Bool :=
  a.flavor == b.flavor && a.body == b.body && true

theorem opaque_auth_eqOp_iff (a b : opaque_auth) :
    opaque_auth.eqOp a b = true ↔ a = b := by
  cases a
  cases b
  simp [opaque_auth.eqOp, Bool.and_eq_true, beq_iff_eq, opaque_auth.mk.injEq]

def mismatch_info.eqOp (a b : mismatch_info) : Bool :=
  a.low == b.low && a.high == b.high && true

theorem mismatch_info_eqOp_iff (a b : mismatch_info) :
    mismatch_info.eqOp a b = true ↔ a = b := by
  cases a
  cases b
  simp [mismatch_info.eqOp, Bool.and_eq_true, beq_iff_eq, mismatch_info.mk.injEq]

def call_body.eqOp (a b : call_body) : Bool :=
  a.rpcvers == b.rpcvers && a.prog == b.prog && a.vers == b.vers &&
    a.proc == b.proc && opaque_auth.eqOp a.cred b.cred &&
    opaque_auth.eqOp a.verf b.verf && true

theorem call_body_eqOp_iff (a b : call_body) :
    call_body.eqOp a b = true ↔ a = b := by
  cases a
  cases b
  simp [call_body.eqOp, Bool.and_eq_true, beq_iff_eq, opaque_auth_eqOp_iff,
    call_body.mk.injEq, and_assoc]

def rpc_msg_call.eqOp (a b : rpc_msg_call) : Bool :=
  a.xid == b.xid && a.mtype == b.mtype && call_body.eqOp a.cbody b.cbody && true

theorem rpc_msg_call_eqOp_iff (a b : rpc_msg_call) :
    rpc_msg_call.eqOp a b = true ↔ a = b := by
  cases a
  cases b
  simp [rpc_msg_call.eqOp, Bool.and_eq_true, beq_iff_eq, call_body_eqOp_iff,
    rpc_msg_call.mk.injEq, and_assoc]

def accepted_reply.eqOp (a b : accepted_reply) : Bool :=
  opaque_auth.eqOp a.verf b.verf && a.stat == b.stat && true

theorem accepted_reply_eqOp_iff (a b : accepted_reply) :
    accepted_reply.eqOp a b = true ↔ a = b := by
  cases a
  cases b
  simp [accepted_reply.eqOp, Bool.and_eq_true, beq_iff_eq, opaque_auth_eqOp_iff,
    accepted_reply.mk.injEq]

/-- Modelled from the spec: equality of the `XdrVariant`-derived
`rejected_reply` (`Xdr.h` is not among the provided sources) is structural
equality of tag and payload per spec section 2. -/
def rejected_reply.eqOp : rejected_reply → rejected_reply → Bool
  | .Mismatch x, .Mismatch y => mismatch_info.eqOp x y
  | .AuthError x, .AuthError y => x == y
  | _, _ => false

theorem rejected_reply_eqOp_iff (a b : rejected_reply) :
    rejected_reply.eqOp a b = true ↔ a = b := by
  cases a <;> cases b <;>
    simp [rejected_reply.eqOp, mismatch_info_eqOp_iff, beq_iff_eq]

/-- Modelled from the spec: equality of the `XdrVariant`-derived
`reply_body`, structural over tag and payload per spec section 2. -/
def reply_body.eqOp : reply_body → reply_body → Bool
  | .Accepted x, .Accepted y => accepted_reply.eqOp x y
  | .Denied x, .Denied y => rejected_reply.eqOp x y
  | _, _ => false

theorem reply_body_eqOp_iff (a b : reply_body) :
    reply_body.eqOp a b = true ↔ a = b := by
  cases a <;> cases b <;>
    simp [reply_body.eqOp, accepted_reply_eqOp_iff, rejected_reply_eqOp_iff]

def rpc_msg_reply.eqOp (a b : rpc_msg_reply) : Bool :=
  a.xid == b.xid && a.mtype == b.mtype && reply_body.eqOp a.rbody b.rbody && true

theorem rpc_msg_reply_eqOp_iff (a b : rpc_msg_reply) :
    rpc_msg_reply.eqOp a b = true ↔ a = b := by
  cases a
  cases b
  simp [rpc_msg_reply.eqOp, Bool.and_eq_true, beq_iff_eq, reply_body_eqOp_iff,
    rpc_msg_reply.mk.injEq, and_assoc]

def authsys_parms.eqOp (a b : authsys_parms) : Bool :=
  a.stamp == b.stamp && a.machinename == b.machinename && a.uid == b.uid &&
    a.gid == b.gid && a.gids == b.gids && true

theorem authsys_parms_eqOp_iff (a b : authsys_parms) :
    authsys_parms.eqOp a b = true ↔ a = b := by
  cases a
  cases b
  simp [authsys_parms.eqOp, Bool.and_eq_true, beq_iff_eq,
    authsys_parms.mk.injEq, and_assoc]

theorem rejectStat_fromOrdinal_ge2 (n : Nat) (h : 2 ≤ n) :
    reject_stat.fromOrdinal n = none := by
  match n with
  | 0 => exact absurd h (by omega)
  | 1 => exact absurd h (by omega)
  | Nat.succ (Nat.succ k) => rfl

theorem replyStat_fromOrdinal_ge2 (n : Nat) (h : 2 ≤ n) :
    reply_stat.fromOrdinal n = none := by
  match n with
  | 0 => exact absurd h (by omega)
  | 1 => exact absurd h (by omega)
  | Nat.succ (Nat.succ k) => rfl

/-- C1: decoding a `rejected_reply` or a `reply_body` from a buffer whose
leading discriminant u32 is not 0 or 1 fails with `InvalidEnumValue`; no
default or fallback payload is ever produced for an unknown discriminant. -/
theorem discriminant_not_01_fails (b0 b1 b2 b3 : Byte) (rest : Bytes)
    (h : 2 ≤ b0.val * 16777216 + b1.val * 65536 + b2.val * 256 + b3.val) :
    rejected_reply.deserialize (b0 :: b1 :: b2 :: b3 :: rest) =
        .error .invalidEnum ∧
      reply_body.deserialize (b0 :: b1 :: b2 :: b3 :: rest) =
        .error .invalidEnum := by
  constructor
  · simp only [rejected_reply.deserialize, deRejectStat, deEnum, deU32]
    rw [rejectStat_fromOrdinal_ge2 _ h]
  · simp only [reply_body.deserialize, deReplyStat, deEnum, deU32]
    rw [replyStat_fromOrdinal_ge2 _ h]

/-- Witness for C1 at the concrete discriminant 5. -/
theorem discriminant_not_01_fails_witness :
    2 ≤ (0 : Byte).val * 16777216 + (0 : Byte).val * 65536 +
        (0 : Byte).val * 256 + (5 : Byte).val ∧
      rejected_reply.deserialize [0, 0, 0, 5] = .error .invalidEnum ∧
      reply_body.deserialize [0, 0, 0, 5] = .error .invalidEnum :=
  ⟨by decide, discriminant_not_01_fails 0 0 0 5 [] (by decide)⟩

/-- C2: for every well-formed value of every message-model type, decoding
the bytes produced by encoding it returns a structurally equal value and
consumes the whole encoding. -/
theorem decode_encode_roundtrip :
    (∀ v : opaque_auth, wf_opaque_auth v →
      opaque_auth.deserialize (opaque_auth.serialize v) = .ok (v, [])) ∧
    (∀ v : call_body, wf_call_body v →
      call_body.deserialize (call_body.serialize v) = .ok (v, [])) ∧
    (∀ v : rpc_msg_call, wf_rpc_msg_call v →
      rpc_msg_call.deserialize (rpc_msg_call.serialize v) = .ok (v, [])) ∧
    (∀ v : mismatch_info,
      mismatch_info.deserialize (mismatch_info.serialize v) = .ok (v, [])) ∧
    (∀ v : accepted_reply, wf_accepted_reply v →
      accepted_reply.deserialize (accepted_reply.serialize v) = .ok (v, [])) ∧
    (∀ v : rejected_reply,
      rejected_reply.deserialize (rejected_reply.serialize v) = .ok (v, [])) ∧
    (∀ v : reply_body, wf_reply_body v →
      reply_body.deserialize (reply_body.serialize v) = .ok (v, [])) ∧
    (∀ v : rpc_msg_reply, wf_rpc_msg_reply v →
      rpc_msg_reply.deserialize (rpc_msg_reply.serialize v) = .ok (v, [])) ∧
    (∀ v : authsys_parms, wf_authsys_parms v →
      authsys_parms.deserialize (authsys_parms.serialize v) = .ok (v, [])) := by
  refine ⟨fun v hv => ?_, fun v hv => ?_, fun v hv => ?_, fun v => ?_,
    fun v hv => ?_, fun v => ?_, fun v hv => ?_, fun v hv => ?_, fun v hv => ?_⟩
  · simpa using serDe_opaque_auth v [] hv
  · simpa using serDe_call_body v [] hv
  · simpa using serDe_rpc_msg_call v [] hv
  · simpa using serDe_mismatch_info v [] trivial
  · simpa using serDe_accepted_reply v [] hv
  · simpa using serDe_rejected_reply v [] trivial
  · simpa using serDe_reply_body v [] hv
  · simpa using serDe_rpc_msg_reply v [] hv
  · simpa using serDe_authsys_parms v [] hv

/-- Witness for C2 on a concrete reply message carrying a denied body and on
concrete UNIX credentials. -/
theorem decode_encode_roundtrip_witness :
    (wf_rpc_msg_reply
        (rpc_msg_reply.mk 7 .REPLY
          (.Denied (.Mismatch (mismatch_info.mk 2 4)))) ∧
      rpc_msg_reply.deserialize
        (rpc_msg_reply.serialize
          (rpc_msg_reply.mk 7 .REPLY
            (.Denied (.Mismatch (mismatch_info.mk 2 4))))) =
        .ok (rpc_msg_reply.mk 7 .REPLY
          (.Denied (.Mismatch (mismatch_info.mk 2 4))), [])) ∧
    (wf_authsys_parms (authsys_parms.mk 1 [104, 105] 1000 1000 [5, 6]) ∧
      authsys_parms.deserialize
        (authsys_parms.serialize
          (authsys_parms.mk 1 [104, 105] 1000 1000 [5, 6])) =
        .ok (authsys_parms.mk 1 [104, 105] 1000 1000 [5, 6], [])) :=
  ⟨⟨by decide,
    decode_encode_roundtrip.2.2.2.2.2.2.2.1 _ (by decide)⟩,
   ⟨by decide,
    decode_encode_roundtrip.2.2.2.2.2.2.2.2 _ (by decide)⟩⟩

/-- The concrete call body of spec scenario A: rpcvers 2, prog 100003 (NFS),
vers 3, proc 0, empty AUTH_NONE credential and verifier. -/
def scenarioACallBody : call_body :=
  call_body.mk 2 100003 3 0
    (opaque_auth.mk .AUTH_NONE []) (opaque_auth.mk .AUTH_NONE [])

/-- C3 counterexample: encoding the scenario-A call body does not append 40
bytes. -/
theorem scenarioA_not_40_bytes :
    (call_body.serialize scenarioACallBody).length ≠ 40 := by
  decide

/-- C3 as amended: encoding the scenario-A call body appends exactly 32
bytes: four u32 fields of 4 bytes each, plus two empty opaque_auth
encodings of 8 bytes each (4-byte flavor, 4-byte zero length). -/
theorem scenarioA_32_bytes :
    (call_body.serialize scenarioACallBody).length = 32 := by
  decide

/-- C4: decoding a `rejected_reply` from the 12 big-endian bytes
0x00000000, 0x00000002, 0x00000004 yields the RPC_MISMATCH variant with
low 2 and high 4, consuming the whole buffer. -/
theorem rejected_reply_mismatch_decode :
    rejected_reply.deserialize [0, 0, 0, 0, 0, 0, 0, 2, 0, 0, 0, 4] =
      .ok (.Mismatch (mismatch_info.mk 2 4), []) := by
  rfl

/-- C5: the `call_body` codec gives `rpcvers` no special treatment: decoding
succeeds even when the encoded `rpcvers` differs from `kRPCVersion = 2`, and
the decoded value hands the off-version field back to the caller unchanged;
no error is raised inside the codec for it. -/
theorem rpcvers_not_checked_by_codec (v : call_body)
    (_hver : v.rpcvers.val ≠ 2) (hv : wf_call_body v) :
    call_body.deserialize (call_body.serialize v) = .ok (v, []) := by
  simpa using serDe_call_body v [] hv

/-- Witness for C5 at rpcvers 7. -/
theorem rpcvers_not_checked_by_codec_witness :
    (call_body.mk 7 100003 3 0 (opaque_auth.mk .AUTH_NONE [])
        (opaque_auth.mk .AUTH_NONE [])).rpcvers.val ≠ 2 ∧
      wf_call_body (call_body.mk 7 100003 3 0 (opaque_auth.mk .AUTH_NONE [])
        (opaque_auth.mk .AUTH_NONE [])) ∧
      call_body.deserialize
        (call_body.serialize
          (call_body.mk 7 100003 3 0 (opaque_auth.mk .AUTH_NONE [])
            (opaque_auth.mk .AUTH_NONE []))) =
        .ok (call_body.mk 7 100003 3 0 (opaque_auth.mk .AUTH_NONE [])
          (opaque_auth.mk .AUTH_NONE []), []) :=
  ⟨by decide, by decide,
    rpcvers_not_checked_by_codec _ (by decide) (by decide)⟩

/-- C6: for every message-model type, decoding from a buffer that is the
encoding of a well-formed value cut short at any byte offset before its full
length fails with `TruncatedInput` (decoders consume only from the supplied
byte list, so no read outside the buffer is representable). -/
theorem truncated_decode_fails :
    (∀ (v : opaque_auth) (n : Nat), wf_opaque_auth v →
      n < (opaque_auth.serialize v).length →
      opaque_auth.deserialize ((opaque_auth.serialize v).take n) =
        .error .truncated) ∧
    (∀ (v : call_body) (n : Nat), wf_call_body v →
      n < (call_body.serialize v).length →
      call_body.deserialize ((call_body.serialize v).take n) =
        .error .truncated) ∧
    (∀ (v : rpc_msg_call) (n : Nat), wf_rpc_msg_call v →
      n < (rpc_msg_call.serialize v).length →
      rpc_msg_call.deserialize ((rpc_msg_call.serialize v).take n) =
        .error .truncated) ∧
    (∀ (v : mismatch_info) (n : Nat), n < (mismatch_info.serialize v).length →
      mismatch_info.deserialize ((mismatch_info.serialize v).take n) =
        .error .truncated) ∧
    (∀ (v : accepted_reply) (n : Nat), wf_accepted_reply v →
      n < (accepted_reply.serialize v).length →
      accepted_reply.deserialize ((accepted_reply.serialize v).take n) =
        .error .truncated) ∧
    (∀ (v : rejected_reply) (n : Nat), n < (rejected_reply.serialize v).length →
      rejected_reply.deserialize ((rejected_reply.serialize v).take n) =
        .error .truncated) ∧
    (∀ (v : reply_body) (n : Nat), wf_reply_body v →
      n < (reply_body.serialize v).length →
      reply_body.deserialize ((reply_body.serialize v).take n) =
        .error .truncated) ∧
    (∀ (v : rpc_msg_reply) (n : Nat), wf_rpc_msg_reply v →
      n < (rpc_msg_reply.serialize v).length →
      rpc_msg_reply.deserialize ((rpc_msg_reply.serialize v).take n) =
        .error .truncated) ∧
    (∀ (v : authsys_parms) (n : Nat), wf_authsys_parms v →
      n < (authsys_parms.serialize v).length →
      authsys_parms.deserialize ((authsys_parms.serialize v).take n) =
        .error .truncated) :=
  ⟨serTrunc_opaque_auth, serTrunc_call_body, serTrunc_rpc_msg_call,
    fun v n => serTrunc_mismatch_info v n trivial,
    serTrunc_accepted_reply,
    fun v n => serTrunc_rejected_reply v n trivial,
    serTrunc_reply_body, serTrunc_rpc_msg_reply, serTrunc_authsys_parms⟩

/-- Witness for C6: a one-byte opaque_auth body encodes to 12 bytes and a
5-byte cut fails with `TruncatedInput`, as does the scenario-A call body cut
one byte short of its 32. -/
theorem truncated_decode_fails_witness :
    (wf_opaque_auth (opaque_auth.mk .AUTH_NONE [104]) ∧
      5 < (opaque_auth.serialize (opaque_auth.mk .AUTH_NONE [104])).length ∧
      opaque_auth.deserialize
          ((opaque_auth.serialize (opaque_auth.mk .AUTH_NONE [104])).take 5) =
        .error .truncated) ∧
    (wf_call_body scenarioACallBody ∧
      31 < (call_body.serialize scenarioACallBody).length ∧
      call_body.deserialize
          ((call_body.serialize scenarioACallBody).take 31) =
        .error .truncated) :=
  ⟨⟨by decide, by decide,
    truncated_decode_fails.1 _ 5 (by decide) (by decide)⟩,
   ⟨by decide, by decide,
    truncated_decode_fails.2.1 _ 31 (by decide) (by decide)⟩⟩

/-- C7: decoding is all-or-nothing: in the sequential field composition a
failed field decode aborts the enclosing decode with the same error and no
partially populated value is returned (the result is the error alone); this
is stated for the generic sequencing combinators that every structure
decoder is built from, and instantiated on `call_body`. -/
theorem decode_all_or_nothing :
    (∀ (α β : Type) (d1 : Decoder α) (d2 : Decoder β) (buf : Bytes)
      (e : XdrError), d1 buf = .error e → dthen d1 d2 buf = .error e) ∧
    (∀ (α β : Type) (d1 : Decoder α) (d2 : Decoder β) (buf r : Bytes) (a : α)
      (e : XdrError), d1 buf = .ok (a, r) → d2 r = .error e →
      dthen d1 d2 buf = .error e) ∧
    (∀ (α β : Type) (d : Decoder α) (f : α → β) (buf : Bytes) (e : XdrError),
      d buf = .error e → dmap d f buf = .error e) ∧
    (∀ (buf : Bytes) (e : XdrError), deU32 buf = .error e →
      call_body.deserialize buf = .error e) ∧
    (∀ (buf r : Bytes) (a : U32) (e : XdrError), deU32 buf = .ok (a, r) →
      deU32 r = .error e → call_body.deserialize buf = .error e) := by
  refine ⟨fun α β d1 d2 buf e h => dthen_err1 h,
    fun α β d1 d2 buf r a e h1 h2 => dthen_err2 h1 h2,
    fun α β d f buf e h => dmap_err h,
    fun buf e h => dmap_err (dthen_err1 h),
    fun buf r a e h1 h2 => dmap_err (dthen_err2 h1 (dthen_err1 h2))⟩

/-- Witness for C7: the empty buffer fails the first field of `call_body`
with `TruncatedInput` and the whole decode reports exactly that error, and a
4-byte buffer fails at the second field the same way. -/
theorem decode_all_or_nothing_witness :
    (deU32 [] = .error .truncated ∧
      call_body.deserialize [] = .error .truncated) ∧
    (deU32 [0, 0, 0, 2] = .ok (2, []) ∧ deU32 [] = .error .truncated ∧
      call_body.deserialize [0, 0, 0, 2] = .error .truncated) :=
  ⟨⟨rfl, decode_all_or_nothing.2.2.2.1 [] .truncated rfl⟩,
   ⟨rfl, rfl,
    decode_all_or_nothing.2.2.2.2 [0, 0, 0, 2] [] 2 .truncated rfl rfl⟩⟩

/-- C8: in the union model, discriminant and payload are mutually consistent
by construction: a `rejected_reply` carries the RPC_MISMATCH tag exactly
when its payload is a `mismatch_info` and the AUTH_ERROR tag exactly when it
is an `auth_stat`, and likewise for `reply_body`; no value with a mismatched
or missing payload is constructible, so none is reachable through
encode/decode. -/
theorem union_tag_payload_consistent :
    (∀ v : rejected_reply,
      (v.tag = .RPC_MISMATCH ↔ ∃ info, v = .Mismatch info) ∧
      (v.tag = .AUTH_ERROR ↔ ∃ stat, v = .AuthError stat)) ∧
    (∀ v : reply_body,
      (v.tag = .MSG_ACCEPTED ↔ ∃ areply, v = .Accepted areply) ∧
      (v.tag = .MSG_DENIED ↔ ∃ rreply, v = .Denied rreply)) := by
  constructor
  · rintro (info | stat) <;>
      simp [rejected_reply.tag]
  · rintro (areply | rreply) <;>
      simp [reply_body.tag]

/-- Witness for C8 on concrete union values. -/
theorem union_tag_payload_consistent_witness :
    (rejected_reply.Mismatch (mismatch_info.mk 2 4)).tag = .RPC_MISMATCH ∧
      (reply_body.Accepted
        (accepted_reply.mk (opaque_auth.mk .AUTH_NONE []) .SUCCESS)).tag =
        .MSG_ACCEPTED :=
  ⟨((union_tag_payload_consistent.1
      (rejected_reply.Mismatch (mismatch_info.mk 2 4))).1).mpr ⟨_, rfl⟩,
   ((union_tag_payload_consistent.2
      (reply_body.Accepted
        (accepted_reply.mk (opaque_auth.mk .AUTH_NONE []) .SUCCESS))).1).mpr
     ⟨_, rfl⟩⟩

theorem msgType_fromOrdinal_sound (n : Nat) (v : msg_type)
    (h : msg_type.fromOrdinal n = some v) : msg_type.toOrdinal v = n := by
  unfold msg_type.fromOrdinal at h
  split at h
  all_goals first
    | (injection h with h2; subst h2; rfl)
    | exact Option.noConfusion h

theorem replyStat_fromOrdinal_sound (n : Nat) (v : reply_stat)
    (h : reply_stat.fromOrdinal n = some v) : reply_stat.toOrdinal v = n := by
  unfold reply_stat.fromOrdinal at h
  split at h
  all_goals first
    | (injection h with h2; subst h2; rfl)
    | exact Option.noConfusion h

theorem rejectStat_fromOrdinal_sound (n : Nat) (v : reject_stat)
    (h : reject_stat.fromOrdinal n = some v) : reject_stat.toOrdinal v = n := by
  unfold reject_stat.fromOrdinal at h
  split at h
  all_goals first
    | (injection h with h2; subst h2; rfl)
    | exact Option.noConfusion h

theorem acceptStat_fromOrdinal_sound (n : Nat) (v : accept_stat)
    (h : accept_stat.fromOrdinal n = some v) : accept_stat.toOrdinal v = n := by
  unfold accept_stat.fromOrdinal at h
  split at h
  all_goals first
    | (injection h with h2; subst h2; rfl)
    | exact Option.noConfusion h

theorem authFlavor_fromOrdinal_sound (n : Nat) (v : auth_flavor)
    (h : auth_flavor.fromOrdinal n = some v) : auth_flavor.toOrdinal v = n := by
  unfold auth_flavor.fromOrdinal at h
  split at h
  all_goals first
    | (injection h with h2; subst h2; rfl)
    | exact Option.noConfusion h

theorem authStat_fromOrdinal_sound (n : Nat) (v : auth_stat)
    (h : auth_stat.fromOrdinal n = some v) : auth_stat.toOrdinal v = n := by
  unfold auth_stat.fromOrdinal at h
  split at h
  all_goals first
    | (injection h with h2; subst h2; rfl)
    | exact Option.noConfusion h

/-- C9: each protocol enumeration declares exactly the listed ordinals —
the declared variants map to exactly those u32 values, only those values
decode to a variant — and each enum value is serialized on the wire as its
u32 ordinal. -/
theorem enum_ordinals_and_wire :
    (msg_type.toOrdinal .CALL = 0 ∧ msg_type.toOrdinal .REPLY = 1 ∧
      reply_stat.toOrdinal .MSG_ACCEPTED = 0 ∧
      reply_stat.toOrdinal .MSG_DENIED = 1 ∧
      reject_stat.toOrdinal .RPC_MISMATCH = 0 ∧
      reject_stat.toOrdinal .AUTH_ERROR = 1 ∧
      accept_stat.toOrdinal .SUCCESS = 0 ∧
      accept_stat.toOrdinal .PROG_UNAVAIL = 1 ∧
      accept_stat.toOrdinal .PROG_MISMATCH = 2 ∧
      accept_stat.toOrdinal .PROC_UNAVAIL = 3 ∧
      accept_stat.toOrdinal .GARBAGE_ARGS = 4 ∧
      accept_stat.toOrdinal .SYSTEM_ERR = 5 ∧
      auth_flavor.toOrdinal .AUTH_NONE = 0 ∧
      auth_flavor.toOrdinal .AUTH_SYS = 1 ∧
      auth_flavor.toOrdinal .AUTH_SHORT = 2 ∧
      auth_flavor.toOrdinal .AUTH_DH = 3 ∧
      auth_flavor.toOrdinal .RPCSEC_GSS = 6 ∧
      auth_stat.toOrdinal .AUTH_OK = 0 ∧
      auth_stat.toOrdinal .AUTH_BADCRED = 1 ∧
      auth_stat.toOrdinal .AUTH_REJECTEDCRED = 2 ∧
      auth_stat.toOrdinal .AUTH_BADVERF = 3 ∧
      auth_stat.toOrdinal .AUTH_REJECTEDVERF = 4 ∧
      auth_stat.toOrdinal .AUTH_TOOWEAK = 5 ∧
      auth_stat.toOrdinal .AUTH_INVALIDRESP = 6 ∧
      auth_stat.toOrdinal .AUTH_FAILED = 7 ∧
      auth_stat.toOrdinal .AUTH_KERB_GENERIC = 8 ∧
      auth_stat.toOrdinal .AUTH_TIMEEXPIRE = 9 ∧
      auth_stat.toOrdinal .AUTH_TKT_FILE = 10 ∧
      auth_stat.toOrdinal .AUTH_DECODE = 11 ∧
      auth_stat.toOrdinal .AUTH_NET_ADDR = 12 ∧
      auth_stat.toOrdinal .RPCSEC_GSS_CREDPROBLEM = 13 ∧
      auth_stat.toOrdinal .RPCSEC_GSS_CTXPROBLEM = 14) ∧
    ((∀ v, msg_type.fromOrdinal (msg_type.toOrdinal v) = some v) ∧
      (∀ v, reply_stat.fromOrdinal (reply_stat.toOrdinal v) = some v) ∧
      (∀ v, reject_stat.fromOrdinal (reject_stat.toOrdinal v) = some v) ∧
      (∀ v, accept_stat.fromOrdinal (accept_stat.toOrdinal v) = some v) ∧
      (∀ v, auth_flavor.fromOrdinal (auth_flavor.toOrdinal v) = some v) ∧
      (∀ v, auth_stat.fromOrdinal (auth_stat.toOrdinal v) = some v)) ∧
    ((∀ n v, msg_type.fromOrdinal n = some v → msg_type.toOrdinal v = n) ∧
      (∀ n v, reply_stat.fromOrdinal n = some v → reply_stat.toOrdinal v = n) ∧
      (∀ n v, reject_stat.fromOrdinal n = some v → reject_stat.toOrdinal v = n) ∧
      (∀ n v, accept_stat.fromOrdinal n = some v → accept_stat.toOrdinal v = n) ∧
      (∀ n v, auth_flavor.fromOrdinal n = some v → auth_flavor.toOrdinal v = n) ∧
      (∀ n v, auth_stat.fromOrdinal n = some v → auth_stat.toOrdinal v = n)) ∧
    ((∀ v, serMsgType v = serU32n (msg_type.toOrdinal v)) ∧
      (∀ v, serReplyStat v = serU32n (reply_stat.toOrdinal v)) ∧
      (∀ v, serRejectStat v = serU32n (reject_stat.toOrdinal v)) ∧
      (∀ v, serAcceptStat v = serU32n (accept_stat.toOrdinal v)) ∧
      (∀ v, serAuthFlavor v = serU32n (auth_flavor.toOrdinal v)) ∧
      (∀ v, serAuthStat v = serU32n (auth_stat.toOrdinal v))) := by
  refine ⟨by decide,
    ⟨fun v => by cases v <;> rfl, fun v => by cases v <;> rfl,
      fun v => by cases v <;> rfl, fun v => by cases v <;> rfl,
      fun v => by cases v <;> rfl, fun v => by cases v <;> rfl⟩,
    ⟨msgType_fromOrdinal_sound, replyStat_fromOrdinal_sound,
      rejectStat_fromOrdinal_sound, acceptStat_fromOrdinal_sound,
      authFlavor_fromOrdinal_sound, authStat_fromOrdinal_sound⟩,
    ⟨fun _ => rfl, fun _ => rfl, fun _ => rfl, fun _ => rfl, fun _ => rfl,
      fun _ => rfl⟩⟩

/-- Witness for C9: ordinal 6 decodes to RPCSEC_GSS and its ordinal is 6,
and on the wire AUTH_SHORT is the big-endian u32 2. -/
theorem enum_ordinals_and_wire_witness :
    (auth_flavor.fromOrdinal 6 = some .RPCSEC_GSS ∧
      auth_flavor.toOrdinal .RPCSEC_GSS = 6) ∧
      serAuthFlavor .AUTH_SHORT = serU32n 2 :=
  ⟨⟨rfl, enum_ordinals_and_wire.2.2.1.2.2.2.2.1 6 .RPCSEC_GSS rfl⟩,
    enum_ordinals_and_wire.2.2.2.2.2.2.2.1 .AUTH_SHORT⟩

/-- C10: for every message-model type, the modelled `operator==` returns
true exactly when every corresponding field pair compares equal, in declared
field order; in particular it is reflexive. -/
theorem operatorEq_fieldwise :
    (∀ a b : opaque_auth, opaque_auth.eqOp a b = true ↔
      a.flavor = b.flavor ∧ a.body = b.body) ∧
    (∀ a b : call_body, call_body.eqOp a b = true ↔
      a.rpcvers = b.rpcvers ∧ a.prog = b.prog ∧ a.vers = b.vers ∧
        a.proc = b.proc ∧ a.cred = b.cred ∧ a.verf = b.verf) ∧
    (∀ a b : rpc_msg_call, rpc_msg_call.eqOp a b = true ↔
      a.xid = b.xid ∧ a.mtype = b.mtype ∧ a.cbody = b.cbody) ∧
    (∀ a b : mismatch_info, mismatch_info.eqOp a b = true ↔
      a.low = b.low ∧ a.high = b.high) ∧
    (∀ a b : accepted_reply, accepted_reply.eqOp a b = true ↔
      a.verf = b.verf ∧ a.stat = b.stat) ∧
    (∀ a b : rpc_msg_reply, rpc_msg_reply.eqOp a b = true ↔
      a.xid = b.xid ∧ a.mtype = b.mtype ∧ a.rbody = b.rbody) ∧
    (∀ a b : authsys_parms, authsys_parms.eqOp a b = true ↔
      a.stamp = b.stamp ∧ a.machinename = b.machinename ∧ a.uid = b.uid ∧
        a.gid = b.gid ∧ a.gids = b.gids) ∧
    (∀ a : opaque_auth, opaque_auth.eqOp a a = true) ∧
    (∀ a : call_body, call_body.eqOp a a = true) ∧
    (∀ a : rpc_msg_call, rpc_msg_call.eqOp a a = true) ∧
    (∀ a : mismatch_info, mismatch_info.eqOp a a = true) ∧
    (∀ a : accepted_reply, accepted_reply.eqOp a a = true) ∧
    (∀ a : rejected_reply, rejected_reply.eqOp a a = true) ∧
    (∀ a : reply_body, reply_body.eqOp a a = true) ∧
    (∀ a : rpc_msg_reply, rpc_msg_reply.eqOp a a = true) ∧
    (∀ a : authsys_parms, authsys_parms.eqOp a a = true) := by
  refine ⟨fun a b => ?_, fun a b => ?_, fun a b => ?_, fun a b => ?_,
    fun a b => ?_, fun a b => ?_, fun a b => ?_,
    fun a => (opaque_auth_eqOp_iff a a).mpr rfl,
    fun a => (call_body_eqOp_iff a a).mpr rfl,
    fun a => (rpc_msg_call_eqOp_iff a a).mpr rfl,
    fun a => (mismatch_info_eqOp_iff a a).mpr rfl,
    fun a => (accepted_reply_eqOp_iff a a).mpr rfl,
    fun a => (rejected_reply_eqOp_iff a a).mpr rfl,
    fun a => (reply_body_eqOp_iff a a).mpr rfl,
    fun a => (rpc_msg_reply_eqOp_iff a a).mpr rfl,
    fun a => (authsys_parms_eqOp_iff a a).mpr rfl⟩
  · rw [opaque_auth_eqOp_iff]
    cases a
    cases b
    simp [opaque_auth.mk.injEq]
  · rw [call_body_eqOp_iff]
    cases a
    cases b
    simp [call_body.mk.injEq]
  · rw [rpc_msg_call_eqOp_iff]
    cases a
    cases b
    simp [rpc_msg_call.mk.injEq]
  · rw [mismatch_info_eqOp_iff]
    cases a
    cases b
    simp [mismatch_info.mk.injEq]
  · rw [accepted_reply_eqOp_iff]
    cases a
    cases b
    simp [accepted_reply.mk.injEq]
  · rw [rpc_msg_reply_eqOp_iff]
    cases a
    cases b
    simp [rpc_msg_reply.mk.injEq]
  · rw [authsys_parms_eqOp_iff]
    cases a
    cases b
    simp [authsys_parms.mk.injEq]

/-- Witness for C10: field-wise equality decides `==` on two concrete
`mismatch_info` values and reflexivity holds on a concrete message. -/
theorem operatorEq_fieldwise_witness :
    mismatch_info.eqOp (mismatch_info.mk 2 4) (mismatch_info.mk 2 4) = true ∧
      rpc_msg_call.eqOp
        (rpc_msg_call.mk 9 .CALL
          (call_body.mk 2 100003 3 0 (opaque_auth.mk .AUTH_NONE [])
            (opaque_auth.mk .AUTH_NONE [])))
        (rpc_msg_call.mk 9 .CALL
          (call_body.mk 2 100003 3 0 (opaque_auth.mk .AUTH_NONE [])
            (opaque_auth.mk .AUTH_NONE []))) = true :=
  ⟨(operatorEq_fieldwise.2.2.2.1 _ _).mpr ⟨rfl, rfl⟩,
    operatorEq_fieldwise.2.2.2.2.2.2.2.2.2.1 _⟩
